import Mathlib

/-!
Shallow embedding of the dialogue orchestration engine of
`app_error_correction.py` (Reverse Teaching AI Validator).

Python strings are modeled as Lean `String`, Python floats as `ℚ`
(every constant compared against in the source — 0.75, 0.35, 0.4, 0.8,
0.2, 0.1 — is handled exactly by either semantics on the reachable
values), dicts returned by the two judging capabilities as structures,
and the external capabilities (Groq calls and `random.choice`) as
explicit oracle inputs threaded through each operation.

Parts of the source with no bearing on any verified claim are omitted
and noted where they would appear: `TopicAnalyzer` / `topic_analysis`
(set once, never read by any claimed behavior), the prompt-building and
question-deduplication internals of `generate_response` (its produced
utterance is an oracle input `genText`), and wall-clock time (modeled
as an explicit `now : ℚ` parameter where the source calls
`time.time()`).
-/

namespace TeachingValidator

/- Batteries marks the rational arithmetic operations `@[irreducible]`;
restore default reducibility inside this development so that concrete
evaluations of the embedded operations can be checked by `decide`. -/
attribute [local semireducible] Rat.mul Rat.add Rat.inv Rat.sub Rat.ofScientific

/-! ### Python string primitives -/

/-- Python `str.lower()` (sources are ASCII). -/
def pyLower (s : String) : String := String.mk (s.toList.map Char.toLower)

/-- Python `str.strip()`: drop leading and trailing whitespace. -/
def pyStrip (s : String) : String :=
  String.mk (((s.toList.dropWhile Char.isWhitespace).reverse.dropWhile Char.isWhitespace).reverse)

/-- Helper for `pyWords`: walk the characters, accumulating the current word
reversed; whitespace runs separate words, leading/trailing runs ignored
(the behavior of Python `str.split()` with no argument). -/
def pyWordsAux : List Char → List Char → List String
  | [], acc => if acc.isEmpty then [] else [String.mk acc.reverse]
  | c :: cs, acc =>
    if c.isWhitespace then
      if acc.isEmpty then pyWordsAux cs [] else String.mk acc.reverse :: pyWordsAux cs []
    else
      pyWordsAux cs (c :: acc)

/-- Python `str.split()` with no argument. -/
def pyWords (s : String) : List String := pyWordsAux s.toList []

/-- Python `len(s.split())`. -/
def wordCount (s : String) : ℕ := (pyWords s).length

/-- Helper: does `pat` occur as a contiguous sublist of `s`? -/
def subListOf (pat : List Char) : List Char → Bool
  | [] => pat.isEmpty
  | c :: rest => List.isPrefixOf pat (c :: rest) || subListOf pat rest

/-- Python `pat in s` (substring containment). -/
def strContains (s pat : String) : Bool := subListOf pat.toList s.toList

/-- Python `s.startswith(pat)`. -/
def strStartsWith (s pat : String) : Bool := List.isPrefixOf pat.toList s.toList

/-- Python `s.endswith(pat)`. -/
def strEndsWith (s pat : String) : Bool :=
  List.isPrefixOf pat.toList.reverse s.toList.reverse

/-- Python `any(w in s for w in pats)`. -/
def containsAny (s : String) (pats : List String) : Bool := pats.any (fun p => strContains s p)

/-- Python `s[:n]` on a string. -/
def strTake (s : String) (n : ℕ) : String := String.mk (s.toList.take n)

/-- Python `round(x, 2)` on the exact rational value, as round-half-up (the
reachable inputs are never half-way cases at the second decimal, where Python
would bank-round on the float approximation). -/
def round2 (q : ℚ) : ℚ := ((100 * q + 1 / 2).floor : ℚ) / 100

/-- Python `round(x, 1)`. -/
def round1 (q : ℚ) : ℚ := ((10 * q + 1 / 2).floor : ℚ) / 10

/-- Python `l[-n:]`. -/
def lastN (n : ℕ) (l : List ℚ) : List ℚ := l.drop (l.length - n)

/-- Python `set.add`: sets of strings are modeled as insertion-ordered
duplicate-free lists. -/
def setInsert (l : List String) (x : String) : List String :=
  if x ∈ l then l else l ++ [x]

/-- Python `random.choice(l)` driven by an explicit oracle index. -/
def listChoice (l : List String) (rng : ℕ) : String := l.getD (rng % l.length) ""

/-! ### Lexical predicates (source lines 449-464, 582-606, 131-133) -/

/-- Source `is_inappropriate_response` (lines 582-584). -/
def inappropriate_words : List String := ["idiot", "stupid", "dumb", "shut up", "moron"]

def is_inappropriate_response (text : String) : Bool :=
  inappropriate_words.any (fun w => strContains (pyLower text) w)

/-- Source `is_teacher_asking_question` (lines 449-464). -/
def question_starters : List String :=
  ["what", "how", "why", "when", "where", "which", "who", "can you", "could you"]

def clarification_patterns : List String :=
  ["what kind of", "what type of", "like what", "such as what", "for example"]

def is_teacher_asking_question (teacher_input : String) : Bool :=
  let teacher_lower := pyStrip (pyLower teacher_input)
  if strEndsWith (pyStrip teacher_input) "?" then true
  else if question_starters.any (fun st => strStartsWith teacher_lower st) then true
  else if clarification_patterns.any (fun p => strContains teacher_lower p) then true
  else false

/-- Source `ConversationMemory.is_question` (lines 131-133). -/
def wh_words : List String := ["what", "how", "why", "when", "where", "which", "who"]

def mem_is_question (text : String) : Bool :=
  strContains text "?" || wh_words.any (fun w => strStartsWith (pyLower text) w)

/-- Source `assess_teaching_quality` (lines 586-606). -/
def assess_teaching_quality (explanation : String) : ℚ :=
  if explanation = "" ∨ explanation.length < 5 then 0.1
  else if is_teacher_asking_question explanation = true ∧ wordCount explanation ≤ 6 then 0.4
  else
    let lo := pyLower explanation
    let detailed : Bool := 12 ≤ wordCount explanation
    let uses_examples : Bool := containsAny lo ["example", "like", "such as"]
    let explains_reasoning : Bool := containsAny lo ["because", "since", "reason"]
    let step_by_step : Bool := containsAny lo ["first", "then", "step"]
    let engaging : Bool := containsAny lo ["you", "imagine"]
    let k : ℕ := detailed.toNat + uses_examples.toNat + explains_reasoning.toNat +
      step_by_step.toNat + engaging.toNat
    let base : ℚ := (k : ℚ) / 5
    let base : ℚ := if 25 < wordCount explanation then base + 0.2 else base
    round2 (min base 1)

/-- Quality score exactly as the specification words it (spec section 4.3 /
claim C5): degenerate cases, then five indicators averaged, a flat bonus for
word count above 25, clamp to 1.0, round to two decimals. Kept separate from
`assess_teaching_quality` so the refinement between the two is a theorem. -/
def qualitySpecScore (explanation : String) : ℚ :=
  if explanation.length < 5 then 0.1
  else if wordCount explanation ≤ 6 ∧ is_teacher_asking_question explanation = true then 0.4
  else
    let t := pyLower explanation
    let indicators : List Bool :=
      [12 ≤ wordCount explanation, containsAny t ["example", "like", "such as"],
       containsAny t ["because", "since", "reason"], containsAny t ["first", "then", "step"],
       containsAny t ["you", "imagine"]]
    let iCount : ℚ := (indicators.count true : ℕ)
    let bonus : ℚ := if 25 < wordCount explanation then 0.2 else 0
    round2 (min (iCount / 5 + bonus) 1)

/-! ### Conversation memory (source lines 74-160) -/

structure Memory where
  full_conversation : List (String × String)
  asked_questions : List String
  last_ai_question : String
  conversation_depth : ℕ
  concepts_covered : List String
  correction_mode : Bool
  incorrect_concepts : List String
  verification_questions_asked : ℕ
  verification_answers_correct : ℕ
  current_correction_topic : String
deriving Repr, DecidableEq

/-- Source `ConversationMemory.__init__` (`topic_analysis` omitted: set once,
never read by any verified operation). -/
def initMemory : Memory :=
  { full_conversation := []
    asked_questions := []
    last_ai_question := ""
    conversation_depth := 0
    concepts_covered := []
    correction_mode := false
    incorrect_concepts := []
    verification_questions_asked := 0
    verification_answers_correct := 0
    current_correction_topic := "" }

/-- Source `ConversationMemory.enter_correction_mode` (lines 93-100). -/
def enter_correction_mode (m : Memory) (incorrect_concept : String) : Memory :=
  { m with correction_mode := true
           current_correction_topic := incorrect_concept
           verification_questions_asked := 0
           verification_answers_correct := 0
           incorrect_concepts := m.incorrect_concepts ++ [incorrect_concept] }

/-- Source `ConversationMemory.exit_correction_mode` (lines 102-108). -/
def exit_correction_mode (m : Memory) : Memory :=
  { m with correction_mode := false
           current_correction_topic := ""
           verification_questions_asked := 0
           verification_answers_correct := 0 }

/-- Source `ConversationMemory.add_exchange` (lines 110-129). -/
def mem_add_exchange (m : Memory) (teacher_input ai_response : String) : Memory :=
  let conv := m.full_conversation ++
    [("user", "Teacher: " ++ teacher_input), ("assistant", ai_response)]
  let m := { m with full_conversation := conv }
  let m :=
    if mem_is_question ai_response then
      { m with asked_questions := setInsert m.asked_questions (strTake (pyLower ai_response) 60)
               last_ai_question := ai_response }
    else m
  let m :=
    if 5 < (pyWords teacher_input).length then
      let key_words := ((pyWords teacher_input).filter (fun w => 4 < w.length)).map pyLower
      { m with concepts_covered := (key_words.take 3).foldl setInsert m.concepts_covered }
    else m
  { m with conversation_depth := m.conversation_depth + 1 }

/-- Source `ConversationMemory.reset` (lines 148-160): every field back to its
initial value. -/
def mem_reset (_m : Memory) : Memory := initMemory

/-! ### Teaching session (source lines 162-185) -/

structure Session where
  conversation_memory : Memory
  teaching_quality_scores : List ℚ
  topic : String
  ai_confusion_level : ℕ
  session_start : ℚ
  exchanges_count : ℕ
deriving Repr, DecidableEq

/-- Source `TeachingSession.__init__` with the process-start clock at 0. -/
def initialSession : Session :=
  { conversation_memory := initMemory
    teaching_quality_scores := []
    topic := ""
    ai_confusion_level := 1
    session_start := 0
    exchanges_count := 0 }

/-- Source `TeachingSession.add_exchange` (lines 171-174). -/
def session_add_exchange (s : Session) (student_explanation ai_response : String)
    (quality_score : ℚ) : Session :=
  { s with conversation_memory := mem_add_exchange s.conversation_memory student_explanation ai_response
           teaching_quality_scores := s.teaching_quality_scores ++ [quality_score]
           exchanges_count := s.exchanges_count + 1 }

/-- Source `TeachingSession.reset_session` (lines 176-182); `now` stands for
the `time.time()` call. -/
def reset_session (now : ℚ) (_s : Session) : Session :=
  { conversation_memory := initMemory
    teaching_quality_scores := []
    topic := ""
    ai_confusion_level := 1
    session_start := now
    exchanges_count := 0 }

/-! ### External judging capabilities as oracles (spec section 6)

The fact-check and understanding-assessment calls go to an external model.
Each call outcome is an oracle value: `fail` is a raised exception or
unparsable JSON, `missingKey` is parsed JSON lacking a required key, and
`ok r` is a well-formed result (a JSON object that omits an *optional* key is
represented by `ok` carrying the `.get` default the source would substitute). -/

structure FactResult where
  has_errors : Bool
  incorrect_concept : String
  correct_explanation : String
deriving Repr, DecidableEq

inductive FactOracle where
  | fail
  | missingKey
  | ok (r : FactResult)
deriving Repr, DecidableEq

structure AssessResult where
  shows_understanding : Bool
  confidence : ℚ
  encouragement : String
deriving Repr, DecidableEq

inductive AssessOracle where
  | fail
  | missingKey
  | ok (r : AssessResult)
deriving Repr, DecidableEq

/-- Everything the environment contributes to one dialogue-turn operation:
the two judging-call outcomes, the utterance produced by the generation
capability / fallback path of `generate_response` (whose internals no claim
touches), and the `random.choice` draws of the two template pickers. -/
structure StepEnv where
  factOracle : FactOracle
  assessOracle : AssessOracle
  genText : String
  rngCorrection : ℕ
  rngVerify : ℕ
deriving Repr, DecidableEq

/-- Source `detect_factual_errors` (lines 288-338): explanations under 8
words are skipped; a failed call, unparsable JSON, or a parsed object without
the `has_errors` key all fall through to `\x7b'has_errors': False\x7d`. -/
def detect_factual_errors (o : FactOracle) (explanation : String) : FactResult :=
  if wordCount explanation < 8 then ⟨false, "", ""⟩
  else
    match o with
    | .ok r => r
    | _ => ⟨false, "", ""⟩

/-- Source `generate_correction_response` (lines 340-355). -/
def generate_correction_response (rng : ℕ) (er : FactResult) (topic : String) : String :=
  let c := er.incorrect_concept
  let x := er.correct_explanation
  listChoice
    ["Actually, I need to correct something about " ++ c ++ "! " ++ x ++
       ". Let me ask you: can you explain back to me how " ++ topic ++
       " actually works based on this correction?",
     "Hold on! There\x27s a small error with " ++ c ++ ". Here\x27s what actually happens: " ++
       x ++ ". Now, based on this correction, what do you think is the key process in " ++
       topic ++ "?",
     "I want to help clarify something! " ++ c ++ " isn\x27t quite right. The correct explanation is: " ++
       x ++ ". To make sure you understand, can you tell me what the main steps of " ++
       topic ++ " are now?"]
    rng

/-- Source `assess_understanding` (lines 388-427): replies under 3 words are
rejected outright; a failed call, unparsable JSON, or JSON lacking
`shows_understanding`/`confidence` falls back to word-count understanding with
confidence 0.5. (The under-3-words dict carries no `encouragement` key; the
source never reads it on that path, so `""` stands in for it here.) -/
def assess_understanding (o : AssessOracle) (response : String)
    (_correction_topic : String) : AssessResult :=
  if wordCount response < 3 then ⟨false, 0.1, ""⟩
  else
    match o with
    | .ok r => r
    | _ => ⟨decide (10 < wordCount response), 0.5, "Good effort!"⟩

/-- Source `generate_verification_question` (lines 429-447). -/
def generate_verification_question (topic correction_topic : String)
    (question_number : ℕ) (rng : ℕ) : String :=
  if question_number = 1 then
    listChoice
      ["Great! Now can you explain to me how " ++ correction_topic ++
         " actually works in " ++ topic ++ "?",
       "Perfect! So based on that correction, what\x27s the key thing that happens with " ++
         correction_topic ++ " during " ++ topic ++ "?",
       "Excellent! Now tell me, what role does " ++ correction_topic ++
         " play in the process of " ++ topic ++ "?"]
      rng
  else
    listChoice
      ["I want to make sure this is clear - can you give me an example of " ++
         correction_topic ++ " in " ++ topic ++ "?",
       "Let me ask differently - what would happen if " ++ correction_topic ++
         " didn\x27t work properly during " ++ topic ++ "?",
       "One more check - why is " ++ correction_topic ++ " important for " ++ topic ++ "?"]
      rng

/-- Source `handle_correction_mode` (lines 357-386). -/
def handle_correction_mode (env : StepEnv) (s : Session) (student_response : String) :
    Session × String × ℚ :=
  let m0 := { s.conversation_memory with
              verification_questions_asked :=
                s.conversation_memory.verification_questions_asked + 1 }
  let u := assess_understanding env.assessOracle student_response m0.current_correction_topic
  if u.shows_understanding then
    let m1 := { m0 with verification_answers_correct := m0.verification_answers_correct + 1 }
    if 2 ≤ m1.verification_answers_correct ∨ (0.8 : ℚ) ≤ u.confidence then
      let m2 := exit_correction_mode m1
      let response := "Perfect! You\x27ve got it now! " ++ u.encouragement ++
        " Let me continue with a new question about " ++ s.topic ++ "." ++ " " ++ env.genText
      ({ s with conversation_memory := m2 }, response, 0.8)
    else
      ({ s with conversation_memory := m1 },
       generate_verification_question s.topic m1.current_correction_topic
         m1.verification_questions_asked env.rngVerify, 0.4)
  else
    ({ s with conversation_memory := m0 },
     generate_verification_question s.topic m0.current_correction_topic
       m0.verification_questions_asked env.rngVerify, 0.4)

/-- Source `adjust_confusion_level` (lines 608-619). -/
def adjust_confusion_level (s : Session) (quality_score : ℚ) : Session :=
  if (0.75 : ℚ) ≤ quality_score ∧ 2 ≤ s.exchanges_count then
    { s with ai_confusion_level := min 3 (s.ai_confusion_level + 1) }
  else if quality_score ≤ (0.35 : ℚ) ∧ 4 ≤ s.exchanges_count then
    let recent_scores := lastN 3 s.teaching_quality_scores
    if recent_scores.all (fun x => decide (x ≤ (0.4 : ℚ))) then
      { s with ai_confusion_level := max 1 (s.ai_confusion_level - 1) }
    else s
  else s

/-- Source `teach_step` lines 243-259: correction-mode dispatch, or error
detection followed by either correction entry (score 0.2) or normal
assessment and response generation. -/
def teach_dispatch (env : StepEnv) (s : Session) (student_explanation : String) :
    Session × String × ℚ :=
  if s.conversation_memory.correction_mode then
    handle_correction_mode env s student_explanation
  else
    let error_result := detect_factual_errors env.factOracle student_explanation
    if error_result.has_errors then
      ({ s with conversation_memory :=
           enter_correction_mode s.conversation_memory error_result.incorrect_concept },
       generate_correction_response env.rngCorrection error_result s.topic, 0.2)
    else
      (s, env.genText, assess_teaching_quality student_explanation)

/-- Source `teach_step` lines 261-266: record the exchange, then adjust the
difficulty only if correction mode is not (any longer) active. -/
def teach_record (student_explanation : String) (handled : Session × String × ℚ) : Session :=
  let s2 := session_add_exchange handled.1 student_explanation handled.2.1 handled.2.2
  if s2.conversation_memory.correction_mode = false then adjust_confusion_level s2 handled.2.2
  else s2

/-- Source route `teach_step` (lines 224-277): validation, disrespect
short-circuit (which returns before any state mutation), then dispatch and
recording. Returns the AI utterance and the quality score; the progress
snapshot the route also serializes is `get_session_progress` below. -/
def teach_step (env : StepEnv) (s : Session) (explanation_raw : String) :
    Except String (Session × String × ℚ) :=
  let student_explanation := pyStrip explanation_raw
  if student_explanation = "" then .error "Please provide an explanation"
  else if is_inappropriate_response student_explanation then
    .ok (s, "That\x27s not helpful. Could you explain the concept respectfully?", 0.1)
  else
    let handled := teach_dispatch env s student_explanation
    .ok (teach_record student_explanation handled, handled.2.1, handled.2.2)

/-- Source route `start_teaching` (lines 191-222): validation, then a full
session reset, topic installed, and an opening question generated (the
`TopicAnalyzer` annotation it also stores is never read by a verified
operation and is omitted). The opening question is not recorded into memory. -/
def start_teaching (now : ℚ) (env : StepEnv) (topic_raw : String) (s : Session) :
    Except String (Session × String × ℕ) :=
  let topic := pyStrip topic_raw
  if topic = "" then .error "Please provide a topic to teach"
  else
    let s1 := { reset_session now s with topic := topic }
    .ok (s1, env.genText, s1.ai_confusion_level)

/-! ### Operation traces -/

/-- One transport-level operation against the process-wide session. -/
inductive Op where
  | startOp (now : ℚ) (env : StepEnv) (topic : String)
  | teachOp (env : StepEnv) (explanation : String)
  | resetOp (now : ℚ)
deriving Repr

/-- Apply one operation; a validation error leaves the session untouched,
exactly as the failing route returns before mutating anything. -/
def applyOp (s : Session) : Op → Session
  | .startOp now env t =>
    match start_teaching now env t s with
    | .ok (s1, _, _) => s1
    | .error _ => s
  | .teachOp env e =>
    match teach_step env s e with
    | .ok (s1, _, _) => s1
    | .error _ => s
  | .resetOp now => reset_session now s

def runOps (s : Session) (ops : List Op) : Session := ops.foldl applyOp s

/-! ### Progress snapshot (source lines 621-658) -/

structure ProgressSnapshot where
  average_quality : ℚ
  exchanges : ℕ
  improvement_trend : String
  confusion_level : ℕ
  session_duration : ℚ
  latest_score : Option ℚ
  correction_mode : Bool
  corrections_made : Option ℕ
deriving Repr, DecidableEq

/-- Source `get_session_progress`; the empty-history branch hard-codes
duration 0 and carries no `latest_score` / `corrections_made` keys (`none`
here); `now` stands for the `time.time()` call. -/
def get_session_progress (now : ℚ) (s : Session) : ProgressSnapshot :=
  if s.teaching_quality_scores = [] then
    { average_quality := 0
      exchanges := 0
      improvement_trend := "neutral"
      confusion_level := s.ai_confusion_level
      session_duration := 0
      latest_score := none
      correction_mode := s.conversation_memory.correction_mode
      corrections_made := none }
  else
    let scores := s.teaching_quality_scores
    let avg_quality := scores.sum / (scores.length : ℚ)
    let trend : String :=
      if 3 ≤ scores.length then
        let recent_avg := (lastN 2 scores).sum / 2
        let early_avg := (scores.take 2).sum / 2
        if early_avg + 0.2 < recent_avg then "improving"
        else if recent_avg < early_avg - 0.2 then "declining"
        else "stable"
      else "neutral"
    { average_quality := round2 avg_quality
      exchanges := s.exchanges_count
      improvement_trend := trend
      confusion_level := s.ai_confusion_level
      session_duration := round1 ((now - s.session_start) / 60)
      latest_score := scores.getLast?
      correction_mode := s.conversation_memory.correction_mode
      corrections_made := some s.conversation_memory.incorrect_concepts.length }

/-! ### Concrete fixtures for witnesses and counterexamples -/

/-- Environment whose judging calls both fail (fail-open defaults apply). -/
def envPlain : StepEnv := ⟨.fail, .fail, "Q?", 0, 0⟩

/-- Environment whose fact-check flags an error. -/
def envFlag : StepEnv :=
  ⟨.ok ⟨true, "plants eating sunlight", "Plants convert sunlight into chemical energy"⟩,
   .fail, "Q?", 0, 0⟩

/-- Environment whose understanding assessment is positive and confident. -/
def envConfident : StepEnv := ⟨.fail, .ok ⟨true, 0.9, "Great job!"⟩, "Q?", 0, 0⟩

/-- Environment whose understanding assessment is negative yet confident. -/
def envNegConfident : StepEnv := ⟨.fail, .ok ⟨false, 0.9, "Hm."⟩, "Q?", 0, 0⟩

/-- Environment whose understanding assessment is positive but unconfident. -/
def envShy : StepEnv := ⟨.fail, .ok ⟨true, 0.5, "Nice."⟩, "Q?", 0, 0⟩

/-- A 12-word explanation hitting all five quality indicators (score 1). -/
def strongExpl : String :=
  "first you should know because plants make food with light for example"

/-- An 8-word explanation, long enough to be fact-checked. -/
def errorExpl : String := "plants eat sunlight to grow big and strong"

/-- An 8-word verification reply. -/
def verifyReply : String :=
  "plants convert sunlight into chemical energy through photosynthesis now"

/-- A 30-word explanation containing the markers of claim C5. -/
def thirtyWordExpl : String :=
  "because first example one two three four five six seven eight nine ten " ++
  "eleven twelve thirteen fourteen fifteen sixteen seventeen eighteen nineteen twenty " ++
  "twentyone twentytwo twentythree twentyfour twentyfive twentysix twentyseven"

/-- Session after one low-quality exchange, used by the C4 witness: the
opening question is a question, so its fingerprint is recorded. -/
def sessionAfterAbcd : Session :=
  { conversation_memory :=
      { full_conversation := [("user", "Teacher: abcd"), ("assistant", "Q?")]
        asked_questions := ["q?"]
        last_ai_question := "Q?"
        conversation_depth := 1
        concepts_covered := []
        correction_mode := false
        incorrect_concepts := []
        verification_questions_asked := 0
        verification_answers_correct := 0
        current_correction_topic := "" }
    teaching_quality_scores := [0.1]
    topic := ""
    ai_confusion_level := 1
    session_start := 0
    exchanges_count := 1 }

/-- Trace for the C4 counterexample: promote once, then two low scores, so the
next low score would satisfy every demotion condition of claim C4. -/
def traceBeforeEntryDemotion : Session :=
  runOps initialSession
    [.teachOp envPlain strongExpl, .teachOp envPlain strongExpl,
     .teachOp envPlain "abcd", .teachOp envPlain "abcd"]

/-- Trace for the C10 counterexample: difficulty saturated at 3, then an
erroneous explanation enters correction mode. -/
def traceSaturatedInCorrection : Session :=
  runOps initialSession
    [.teachOp envPlain strongExpl, .teachOp envPlain strongExpl,
     .teachOp envPlain strongExpl, .teachOp envFlag errorExpl]

/-- Trace for the C2 counterexample: correction mode freshly entered. -/
def traceFreshCorrection : Session := runOps initialSession [.teachOp envFlag errorExpl]

/-- Trace for the C6 counterexample: recent mean exceeds the early mean by
exactly 0.2. -/
def traceExactPointTwo : Session :=
  runOps initialSession
    [.teachOp envPlain "plants grow because light", .teachOp envPlain "plants grow because light",
     .teachOp envPlain "plants grow because light first",
     .teachOp envPlain "plants grow because light first"]

/-- The AI utterance returned by the correction-exit turn taken from
`traceFreshCorrection` under `envConfident` (topic is empty: the trace was
built without a StartTeaching). -/
def exitRespC10 : String :=
  "Perfect! You\x27ve got it now! Great job! Let me continue with a new question about . Q?"

/-- Session state after the correction-exit turn on `traceFreshCorrection`
under `envConfident` with reply `verifyReply`: correction mode cleared and
the difficulty promoted to 2 on that same turn. -/
def sessionAfterExit : Session :=
  { conversation_memory :=
      { full_conversation :=
          [("user", "Teacher: plants eat sunlight to grow big and strong"),
           ("assistant",
            "Actually, I need to correct something about plants eating sunlight! " ++
              "Plants convert sunlight into chemical energy. Let me ask you: can you " ++
              "explain back to me how  actually works based on this correction?"),
           ("user",
            "Teacher: plants convert sunlight into chemical energy through photosynthesis now"),
           ("assistant", exitRespC10)]
        asked_questions :=
          ["actually, i need to correct something about plants eating su",
           "perfect! you\x27ve got it now! great job! let me continue with "]
        last_ai_question := exitRespC10
        conversation_depth := 2
        concepts_covered := ["plants", "sunlight", "strong", "convert"]
        correction_mode := false
        incorrect_concepts := ["plants eating sunlight"]
        verification_questions_asked := 0
        verification_answers_correct := 0
        current_correction_topic := "" }
    teaching_quality_scores := [0.2, 0.8]
    topic := ""
    ai_confusion_level := 2
    session_start := 0
    exchanges_count := 2 }

/-! ## Theorems -/

/-- Claim C9: calling ResetSession twice in a row yields the identical
empty-session progress snapshot both times — average quality 0, exchanges 0,
trend neutral, difficulty 1, duration 0, correction mode inactive — whatever
session it started from and whenever the snapshots are taken. -/
theorem c9_reset_idempotent (s : Session) (n1 n2 n3 n4 : ℚ) :
    get_session_progress n3 (reset_session n2 (reset_session n1 s)) =
      get_session_progress n4 (reset_session n1 s) ∧
    get_session_progress n4 (reset_session n1 s) =
      { average_quality := 0
        exchanges := 0
        improvement_trend := "neutral"
        confusion_level := 1
        session_duration := 0
        latest_score := none
        correction_mode := false
        corrections_made := none } := by
  exact ⟨rfl, rfl⟩

/-- Claim C1, counterexample: on an explanation containing a blocklisted term
the route returns the fixed refusal with score 0.1, but the session does NOT
record the exchange — the state is returned untouched and `exchanges_count`
stays 0 instead of increasing to 1. -/
theorem c1_refusal_counterexample :
    is_inappropriate_response (pyStrip "you are an idiot friend") = true ∧
    teach_step envPlain initialSession "you are an idiot friend" =
      .ok (initialSession,
           "That\x27s not helpful. Could you explain the concept respectfully?", 0.1) ∧
    initialSession.exchanges_count = 0 := by
  refine ⟨by decide, rfl, rfl⟩

/-- Claim C1, amended: for every TeachStep whose (stripped) explanation
contains a term from the disrespect blocklist, the call returns the fixed
refusal response with quality score 0.1 without consulting any external
capability (the result is the same for every environment), and the session
state — conversation memory, scores, `exchanges_count`, everything — is left
unchanged; the exchange is NOT recorded. -/
theorem c1_refusal_amended (env : StepEnv) (s : Session) (e : String)
    (h : is_inappropriate_response (pyStrip e) = true) :
    teach_step env s e =
      .ok (s, "That\x27s not helpful. Could you explain the concept respectfully?", 0.1) := by
  have hne : ¬ pyStrip e = "" := by
    intro h0
    rw [h0] at h
    exact absurd h (by decide)
  unfold teach_step
  rw [if_neg hne, if_pos h]

/-- Claim C1 witness: the amended theorem applied at a concrete blocklisted
explanation. -/
theorem c1_refusal_witness :
    teach_step envFlag sessionAfterAbcd "this is stupid" =
      .ok (sessionAfterAbcd,
           "That\x27s not helpful. Could you explain the concept respectfully?", 0.1) :=
  c1_refusal_amended envFlag sessionAfterAbcd "this is stupid" (by decide)

/-- Claim C7: a StartTeaching whose topic is blank after trimming, and a
TeachStep whose explanation is blank after trimming, each fail synchronously
with the user-facing validation message, and the session state is completely
unchanged in both failure cases. -/
theorem c7_validation (s : Session) (env env2 : StepEnv) (now : ℚ) (t e : String) :
    (pyStrip t = "" →
       start_teaching now env t s = .error "Please provide a topic to teach" ∧
       applyOp s (.startOp now env t) = s) ∧
    (pyStrip e = "" →
       teach_step env2 s e = .error "Please provide an explanation" ∧
       applyOp s (.teachOp env2 e) = s) := by
  constructor
  · intro h
    have h1 : start_teaching now env t s = .error "Please provide a topic to teach" := by
      unfold start_teaching
      rw [if_pos h]
    exact ⟨h1, by simp only [applyOp, h1]⟩
  · intro h
    have h1 : teach_step env2 s e = .error "Please provide an explanation" := by
      unfold teach_step
      rw [if_pos h]
    exact ⟨h1, by simp only [applyOp, h1]⟩

/-- Claim C7 witness: the validation theorem at a whitespace topic and an
empty explanation. -/
theorem c7_validation_witness :
    start_teaching 0 envPlain "   " initialSession = .error "Please provide a topic to teach" ∧
    teach_step envPlain initialSession "" = .error "Please provide an explanation" ∧
    applyOp initialSession (.teachOp envPlain "") = initialSession :=
  ⟨((c7_validation initialSession envPlain envPlain 0 "   " "").1 (by decide)).1,
   ((c7_validation initialSession envPlain envPlain 0 "   " "").2 (by decide)).1,
   ((c7_validation initialSession envPlain envPlain 0 "   " "").2 (by decide)).2⟩

/-- Claim C8: a failed or unparsable (or key-missing) fact-check makes the
teach step proceed exactly as if the capability had answered
`has_errors = false`; a failed or unparsable understanding assessment on a
reply of at least 3 words falls back to word-count understanding
(`shows_understanding = (word count > 10)`, confidence 0.5); and no error is
surfaced to the caller — every non-blank explanation yields a normal result. -/
theorem c8_fail_open :
    (∀ (o : FactOracle) (e : String), o = .fail ∨ o = .missingKey →
       detect_factual_errors o e = ⟨false, "", ""⟩ ∧
       detect_factual_errors o e = detect_factual_errors (.ok ⟨false, "", ""⟩) e) ∧
    (∀ (env : StepEnv) (s : Session) (e : String),
       env.factOracle = .fail ∨ env.factOracle = .missingKey →
       teach_step env s e = teach_step { env with factOracle := .ok ⟨false, "", ""⟩ } s e) ∧
    (∀ (o : AssessOracle) (r t : String), 3 ≤ wordCount r → o = .fail ∨ o = .missingKey →
       assess_understanding o r t = ⟨decide (10 < wordCount r), 0.5, "Good effort!"⟩) ∧
    (∀ (env : StepEnv) (s : Session) (e : String), pyStrip e ≠ "" →
       ∃ v, teach_step env s e = Except.ok v) := by
  refine ⟨?_, ?_, ?_, ?_⟩
  · intro o e ho
    rcases ho with rfl | rfl <;>
      exact ⟨by unfold detect_factual_errors; split <;> rfl,
             by unfold detect_factual_errors; split <;> rfl⟩
  · intro env s e ho
    obtain ⟨fo, ao, g, rc, rv⟩ := env
    rcases ho with h | h <;> (simp only at h; subst h; rfl)
  · intro o r t hw ho
    have h3 : ¬ wordCount r < 3 := by omega
    rcases ho with rfl | rfl <;> (unfold assess_understanding; rw [if_neg h3])
  · intro env s e he
    unfold teach_step
    rw [if_neg he]
    split
    · exact ⟨_, rfl⟩
    · exact ⟨_, rfl⟩

/-- Claim C8 witness: the fail-open theorem at a failing fact-check on an
8-word explanation and a failing assessment on a 9-word reply. -/
theorem c8_fail_open_witness :
    detect_factual_errors .fail errorExpl = ⟨false, "", ""⟩ ∧
    teach_step envPlain initialSession errorExpl =
      teach_step { envPlain with factOracle := .ok ⟨false, "", ""⟩ } initialSession errorExpl ∧
    assess_understanding .fail verifyReply "plants eating sunlight" =
      ⟨false, 0.5, "Good effort!"⟩ ∧
    ∃ v, teach_step envPlain initialSession errorExpl = Except.ok v :=
  ⟨(c8_fail_open.1 .fail errorExpl (Or.inl rfl)).1,
   c8_fail_open.2.1 envPlain initialSession errorExpl (Or.inl rfl),
   by
     have h := c8_fail_open.2.2.1 .fail verifyReply "plants eating sunlight" (by decide) (Or.inl rfl)
     simpa using h,
   c8_fail_open.2.2.2 envPlain initialSession errorExpl (by decide)⟩

/-- Splitting a character list yields at most one word per character, plus
one for a pending accumulator. -/
theorem aux_pyWordsAux_length_le (l : List Char) :
    ∀ acc, (pyWordsAux l acc).length ≤ l.length + 1 := by
  induction l with
  | nil =>
    intro acc
    unfold pyWordsAux
    split <;> simp
  | cons c cs ih =>
    intro acc
    unfold pyWordsAux
    split_ifs with h1 h2
    · have := ih []
      simp only [List.length_cons]
      omega
    · have := ih []
      simp only [List.length_cons, List.length_cons] at this ⊢
      omega
    · have := ih (c :: acc)
      simp only [List.length_cons]
      omega

/-- A string has roughly at least as many characters as words. -/
theorem aux_wordCount_le_length (s : String) : wordCount s ≤ s.length + 1 := by
  exact aux_pyWordsAux_length_le s.toList []

/-- Rounding to two decimals keeps a value of [0, 1] inside [0, 1]. -/
theorem aux_round2_bounds (q : ℚ) (h0 : 0 ≤ q) (h1 : q ≤ 1) :
    0 ≤ round2 q ∧ round2 q ≤ 1 := by
  have hlb : (0 : ℤ) ≤ (100 * q + 1 / 2).floor := by
    refine Rat.le_floor.mpr ?_
    push_cast
    linarith
  have hub : (100 * q + 1 / 2).floor ≤ 100 := by
    by_contra hcon
    push_neg at hcon
    have h101 : ((101 : ℤ) : ℚ) ≤ 100 * q + 1 / 2 := Rat.le_floor.mp (by omega)
    push_cast at h101
    linarith
  unfold round2
  constructor
  · positivity
  · rw [div_le_one (by norm_num)]
    exact_mod_cast hub

/-- Counting `true` in a five-element boolean list is the sum of the
indicator values. -/
theorem aux_count_five :
    ∀ a b c d e : Bool,
      (List.count true [a, b, c, d, e] : ℕ) =
        a.toNat + b.toNat + c.toNat + d.toNat + e.toNat := by
  decide

/-- Claim C5: the quality score is 0.1 for empty or under-5-character
explanations, 0.4 for a short explanation that is itself a question, and
otherwise the rounded clamped indicator average with length bonus exactly as
the specification words it (`qualitySpecScore`); every result lies in [0, 1];
and every 30-word explanation containing "because", "first" and "example"
scores exactly 1. -/
theorem c5_quality_formula (e : String) :
    assess_teaching_quality e = qualitySpecScore e ∧
    (0 ≤ assess_teaching_quality e ∧ assess_teaching_quality e ≤ 1) ∧
    (wordCount e = 30 →
      strContains (pyLower e) "because" = true →
      strContains (pyLower e) "first" = true →
      strContains (pyLower e) "example" = true →
      assess_teaching_quality e = 1) := by
  refine ⟨?_, ?_, ?_⟩
  · unfold assess_teaching_quality qualitySpecScore
    by_cases hA : e = "" ∨ e.length < 5
    · have hA' : e.length < 5 := by
        rcases hA with rfl | h
        · simp
        · exact h
      rw [if_pos hA, if_pos hA']
    · have hA' : ¬ e.length < 5 := fun h => hA (Or.inr h)
      rw [if_neg hA, if_neg hA']
      by_cases hB : is_teacher_asking_question e = true ∧ wordCount e ≤ 6
      · rw [if_pos hB, if_pos (and_comm.mp hB)]
      · rw [if_neg hB, if_neg (fun h => hB (and_comm.mp h))]
        dsimp only
        rw [aux_count_five]
        split_ifs with hc <;> push_cast <;> ring_nf
  · unfold assess_teaching_quality
    by_cases hA : e = "" ∨ e.length < 5
    · rw [if_pos hA]
      norm_num
    · rw [if_neg hA]
      by_cases hB : is_teacher_asking_question e = true ∧ wordCount e ≤ 6
      · rw [if_pos hB]
        norm_num
      · rw [if_neg hB]
        dsimp only
        refine aux_round2_bounds _ ?_ ?_
        · split_ifs <;> positivity
        · exact min_le_right _ _
  · intro hw hb hf hx
    have hlen := aux_wordCount_le_length e
    unfold assess_teaching_quality
    have hne : ¬ (e = "" ∨ e.length < 5) := by
      rintro (rfl | h)
      · exact absurd hw (by decide)
      · omega
    rw [if_neg hne]
    have h6 : ¬ (is_teacher_asking_question e = true ∧ wordCount e ≤ 6) := by
      rintro ⟨-, h⟩
      omega
    rw [if_neg h6]
    dsimp only
    have hex : containsAny (pyLower e) ["example", "like", "such as"] = true := by
      simp [containsAny, hx]
    have hbe : containsAny (pyLower e) ["because", "since", "reason"] = true := by
      simp [containsAny, hb]
    have hfi : containsAny (pyLower e) ["first", "then", "step"] = true := by
      simp [containsAny, hf]
    rw [hw, hex, hbe, hfi]
    cases heng : containsAny (pyLower e) ["you", "imagine"] <;> decide

/-- Claim C5 witness: the formula theorem at a concrete 30-word explanation
containing the three markers. -/
theorem c5_quality_witness :
    wordCount thirtyWordExpl = 30 ∧
    assess_teaching_quality thirtyWordExpl = 1 ∧
    assess_teaching_quality thirtyWordExpl = qualitySpecScore thirtyWordExpl :=
  ⟨by decide,
   (c5_quality_formula thirtyWordExpl).2.2 (by decide) (by decide) (by decide) (by decide),
   (c5_quality_formula thirtyWordExpl).1⟩

/-- Claim C6, counterexample: after four recorded scores 0.2, 0.2, 0.4, 0.4
the mean of the last two exceeds the mean of the first two by exactly 0.2 —
"+0.2 or more" per the claim, which therefore demands "improving" — yet the
snapshot reports "stable": the source compares with strict inequality. -/
theorem c6_trend_counterexample :
    traceExactPointTwo.teaching_quality_scores = [0.2, 0.2, 0.4, 0.4] ∧
    (lastN 2 traceExactPointTwo.teaching_quality_scores).sum / 2 -
      (traceExactPointTwo.teaching_quality_scores.take 2).sum / 2 = 0.2 ∧
    (get_session_progress 0 traceExactPointTwo).improvement_trend = "stable" ∧
    (get_session_progress 0 traceExactPointTwo).improvement_trend ≠ "improving" := by
  exact ⟨by decide, by decide, by decide, by decide⟩

/-- Claim C6, amended: the trend is "neutral" while fewer than 3 scores
exist; with 3 or more it compares the mean of the last 2 against the mean of
the first 2 and reports "improving" only when the difference STRICTLY exceeds
+0.2, "declining" only when it is strictly below -0.2, and "stable"
otherwise (a difference of exactly ±0.2 is "stable"). -/
theorem c6_trend_amended (now : ℚ) (s : Session) :
    (s.teaching_quality_scores.length < 3 →
       (get_session_progress now s).improvement_trend = "neutral") ∧
    (3 ≤ s.teaching_quality_scores.length →
       (get_session_progress now s).improvement_trend =
         (if (s.teaching_quality_scores.take 2).sum / 2 + 0.2 <
              (lastN 2 s.teaching_quality_scores).sum / 2 then "improving"
          else if (lastN 2 s.teaching_quality_scores).sum / 2 <
              (s.teaching_quality_scores.take 2).sum / 2 - 0.2 then "declining"
          else "stable")) := by
  unfold get_session_progress
  constructor
  · intro h
    by_cases h0 : s.teaching_quality_scores = []
    · rw [if_pos h0]
    · rw [if_neg h0]
      dsimp only
      rw [if_neg (by omega : ¬ 3 ≤ s.teaching_quality_scores.length)]
  · intro h
    by_cases h0 : s.teaching_quality_scores = []
    · rw [h0] at h
      exact absurd h (by decide)
    · rw [if_neg h0]
      dsimp only
      rw [if_pos h]

/-- Claim C6 witness: the amended theorem evaluated on the counterexample
trace (4 scores, difference exactly 0.2, trend "stable"). -/
theorem c6_trend_witness :
    (get_session_progress 0 traceExactPointTwo).improvement_trend =
      (if (traceExactPointTwo.teaching_quality_scores.take 2).sum / 2 + 0.2 <
           (lastN 2 traceExactPointTwo.teaching_quality_scores).sum / 2 then "improving"
       else if (lastN 2 traceExactPointTwo.teaching_quality_scores).sum / 2 <
           (traceExactPointTwo.teaching_quality_scores.take 2).sum / 2 - 0.2 then "declining"
       else "stable") :=
  (c6_trend_amended 0 traceExactPointTwo).2 (by decide)

/-- Recording an exchange never touches the correction bookkeeping. -/
theorem aux_mem_add_cm (m : Memory) (t a : String) :
    (mem_add_exchange m t a).correction_mode = m.correction_mode := by
  unfold mem_add_exchange
  dsimp only
  split_ifs <;> rfl

theorem aux_mem_add_cct (m : Memory) (t a : String) :
    (mem_add_exchange m t a).current_correction_topic = m.current_correction_topic := by
  unfold mem_add_exchange
  dsimp only
  split_ifs <;> rfl

theorem aux_mem_add_vqa (m : Memory) (t a : String) :
    (mem_add_exchange m t a).verification_questions_asked = m.verification_questions_asked := by
  unfold mem_add_exchange
  dsimp only
  split_ifs <;> rfl

theorem aux_mem_add_vac (m : Memory) (t a : String) :
    (mem_add_exchange m t a).verification_answers_correct = m.verification_answers_correct := by
  unfold mem_add_exchange
  dsimp only
  split_ifs <;> rfl

theorem aux_mem_add_ic (m : Memory) (t a : String) :
    (mem_add_exchange m t a).incorrect_concepts = m.incorrect_concepts := by
  unfold mem_add_exchange
  dsimp only
  split_ifs <;> rfl

/-- Difficulty adjustment touches only the difficulty level. -/
theorem aux_adjust_memory (s : Session) (q : ℚ) :
    (adjust_confusion_level s q).conversation_memory = s.conversation_memory := by
  unfold adjust_confusion_level
  dsimp only
  split_ifs <;> rfl

theorem aux_adjust_count (s : Session) (q : ℚ) :
    (adjust_confusion_level s q).exchanges_count = s.exchanges_count := by
  unfold adjust_confusion_level
  dsimp only
  split_ifs <;> rfl

theorem aux_adjust_scores (s : Session) (q : ℚ) :
    (adjust_confusion_level s q).teaching_quality_scores = s.teaching_quality_scores := by
  unfold adjust_confusion_level
  dsimp only
  split_ifs <;> rfl

/-- The difficulty after an adjustment, as a single formula. -/
theorem aux_adjust_level (s : Session) (q : ℚ) :
    (adjust_confusion_level s q).ai_confusion_level =
      (if (0.75 : ℚ) ≤ q ∧ 2 ≤ s.exchanges_count then min 3 (s.ai_confusion_level + 1)
       else if q ≤ (0.35 : ℚ) ∧ 4 ≤ s.exchanges_count ∧
           (lastN 3 s.teaching_quality_scores).all (fun x => decide (x ≤ (0.4 : ℚ))) = true
         then max 1 (s.ai_confusion_level - 1)
       else s.ai_confusion_level) := by
  unfold adjust_confusion_level
  by_cases h1 : (0.75 : ℚ) ≤ q ∧ 2 ≤ s.exchanges_count
  · rw [if_pos h1, if_pos h1]
  · rw [if_neg h1, if_neg h1]
    by_cases h2 : q ≤ (0.35 : ℚ) ∧ 4 ≤ s.exchanges_count
    · rw [if_pos h2]
      by_cases h3 :
          (lastN 3 s.teaching_quality_scores).all (fun x => decide (x ≤ (0.4 : ℚ))) = true
      · rw [if_pos h3, if_pos ⟨h2.1, h2.2, h3⟩]
      · rw [if_neg h3, if_neg (by tauto)]
    · rw [if_neg h2, if_neg (by tauto)]

/-- Projections of the recording stage of a teach step. -/
theorem aux_record_memory (x : String) (h : Session × String × ℚ) :
    (teach_record x h).conversation_memory = mem_add_exchange h.1.conversation_memory x h.2.1 := by
  unfold teach_record
  dsimp only
  split_ifs with hc
  · rw [aux_adjust_memory]
    rfl
  · rfl

theorem aux_record_count (x : String) (h : Session × String × ℚ) :
    (teach_record x h).exchanges_count = h.1.exchanges_count + 1 := by
  unfold teach_record
  dsimp only
  split_ifs with hc
  · rw [aux_adjust_count]
    rfl
  · rfl

theorem aux_record_scores (x : String) (h : Session × String × ℚ) :
    (teach_record x h).teaching_quality_scores = h.1.teaching_quality_scores ++ [h.2.2] := by
  unfold teach_record
  dsimp only
  split_ifs with hc
  · rw [aux_adjust_scores]
    rfl
  · rfl

/-- While the recorded exchange leaves correction mode active, the difficulty
is frozen. -/
theorem aux_record_level_frozen (x : String) (h : Session × String × ℚ)
    (hc : (mem_add_exchange h.1.conversation_memory x h.2.1).correction_mode = true) :
    (teach_record x h).ai_confusion_level = h.1.ai_confusion_level := by
  unfold teach_record
  dsimp only
  rw [if_neg (by simp [session_add_exchange, hc])]
  rfl

/-- When the recorded exchange ends with correction mode inactive, the
difficulty is adjusted on the session that already contains the exchange. -/
theorem aux_record_level_adjusted (x : String) (h : Session × String × ℚ)
    (hc : (mem_add_exchange h.1.conversation_memory x h.2.1).correction_mode = false) :
    (teach_record x h).ai_confusion_level =
      (if (0.75 : ℚ) ≤ h.2.2 ∧ 2 ≤ h.1.exchanges_count + 1 then min 3 (h.1.ai_confusion_level + 1)
       else if h.2.2 ≤ (0.35 : ℚ) ∧ 4 ≤ h.1.exchanges_count + 1 ∧
           (lastN 3 (h.1.teaching_quality_scores ++ [h.2.2])).all
             (fun x => decide (x ≤ (0.4 : ℚ))) = true
         then max 1 (h.1.ai_confusion_level - 1)
       else h.1.ai_confusion_level) := by
  unfold teach_record
  dsimp only
  rw [if_pos (by simp [session_add_exchange, hc])]
  rw [aux_adjust_level]
  rfl

/-- A teach step that passes validation and the disrespect filter is the
dispatch stage followed by the recording stage. -/
theorem aux_teach_step_eq (env : StepEnv) (s : Session) (e : String)
    (hb : ¬ pyStrip e = "") (hi : is_inappropriate_response (pyStrip e) = false) :
    teach_step env s e =
      .ok (teach_record (pyStrip e) (teach_dispatch env s (pyStrip e)),
           (teach_dispatch env s (pyStrip e)).2.1,
           (teach_dispatch env s (pyStrip e)).2.2) := by
  unfold teach_step
  rw [if_neg hb, hi]
  simp

/-- With correction mode active, the dispatch stage is the verification
handler. -/
theorem aux_dispatch_correction (env : StepEnv) (s : Session) (x : String)
    (hmode : s.conversation_memory.correction_mode = true) :
    teach_dispatch env s x = handle_correction_mode env s x := by
  unfold teach_dispatch
  rw [if_pos hmode]

/-- Verification handler, no-understanding branch: stay in correction mode,
ask the next verification question, score 0.4. -/
theorem aux_handle_noshow (env : StepEnv) (s : Session) (r : String)
    (hshow : (assess_understanding env.assessOracle r
        s.conversation_memory.current_correction_topic).shows_understanding = false) :
    handle_correction_mode env s r =
      ({ s with conversation_memory :=
           { s.conversation_memory with verification_questions_asked :=
               s.conversation_memory.verification_questions_asked + 1 } },
       generate_verification_question s.topic s.conversation_memory.current_correction_topic
         (s.conversation_memory.verification_questions_asked + 1) env.rngVerify,
       0.4) := by
  unfold handle_correction_mode
  dsimp only
  rw [hshow]
  simp

/-- Verification handler, understanding branch: exit with score 0.8 when the
post-increment correct count reaches 2 or the confidence reaches 0.8, else
stay with both counters incremented and score 0.4. -/
theorem aux_handle_show (env : StepEnv) (s : Session) (r : String)
    (hshow : (assess_understanding env.assessOracle r
        s.conversation_memory.current_correction_topic).shows_understanding = true) :
    handle_correction_mode env s r =
      (if 2 ≤ s.conversation_memory.verification_answers_correct + 1 ∨
          (0.8 : ℚ) ≤ (assess_understanding env.assessOracle r
            s.conversation_memory.current_correction_topic).confidence
       then
         ({ s with conversation_memory :=
              { s.conversation_memory with
                  correction_mode := false
                  current_correction_topic := ""
                  verification_questions_asked := 0
                  verification_answers_correct := 0 } },
          "Perfect! You\x27ve got it now! " ++
            (assess_understanding env.assessOracle r
              s.conversation_memory.current_correction_topic).encouragement ++
            " Let me continue with a new question about " ++ s.topic ++ "." ++ " " ++ env.genText,
          0.8)
       else
         ({ s with conversation_memory :=
              { s.conversation_memory with
                  verification_questions_asked :=
                    s.conversation_memory.verification_questions_asked + 1
                  verification_answers_correct :=
                    s.conversation_memory.verification_answers_correct + 1 } },
          generate_verification_question s.topic s.conversation_memory.current_correction_topic
            (s.conversation_memory.verification_questions_asked + 1) env.rngVerify,
          0.4)) := by
  unfold handle_correction_mode exit_correction_mode
  dsimp only
  rw [hshow]
  simp

/-- A verification turn whose assessment does not show understanding leaves
correction mode active with the same correction topic. -/
theorem aux_stay_turn (env : StepEnv) (s : Session) (r : String)
    (hmode : s.conversation_memory.correction_mode = true)
    (hshow : (assess_understanding env.assessOracle (pyStrip r)
        s.conversation_memory.current_correction_topic).shows_understanding = false) :
    (applyOp s (.teachOp env r)).conversation_memory.correction_mode = true ∧
    (applyOp s (.teachOp env r)).conversation_memory.current_correction_topic =
      s.conversation_memory.current_correction_topic := by
  unfold applyOp
  dsimp only
  by_cases hb : pyStrip r = ""
  · have he : teach_step env s r = .error "Please provide an explanation" := by
      unfold teach_step
      rw [if_pos hb]
    rw [he]
    exact ⟨hmode, rfl⟩
  · by_cases hi : is_inappropriate_response (pyStrip r) = true
    · have he : teach_step env s r =
          .ok (s, "That\x27s not helpful. Could you explain the concept respectfully?", 0.1) := by
        unfold teach_step
        rw [if_neg hb, if_pos hi]
      rw [he]
      exact ⟨hmode, rfl⟩
    · rw [aux_teach_step_eq env s r hb (by simpa using hi)]
      rw [aux_dispatch_correction env s (pyStrip r) hmode]
      rw [aux_handle_noshow env s (pyStrip r) hshow]
      dsimp only
      rw [aux_record_memory, aux_mem_add_cm, aux_mem_add_cct]
      exact ⟨hmode, rfl⟩

/-- Replies that never show understanding keep correction mode active over
any whole sequence of teach steps. -/
theorem aux_never_exits (steps : List (StepEnv × String)) :
    ∀ s : Session, s.conversation_memory.correction_mode = true →
    (∀ p ∈ steps, (assess_understanding p.1.assessOracle (pyStrip p.2)
        s.conversation_memory.current_correction_topic).shows_understanding = false) →
    (runOps s (steps.map (fun p => Op.teachOp p.1 p.2))).conversation_memory.correction_mode =
      true := by
  induction steps with
  | nil => intro s hmode _; exact hmode
  | cons p rest ih =>
    intro s hmode hall
    have h1 := aux_stay_turn p.1 s p.2 hmode (hall p (List.mem_cons_self p rest))
    have hstep : runOps s ((p :: rest).map (fun p => Op.teachOp p.1 p.2)) =
        runOps (applyOp s (.teachOp p.1 p.2)) (rest.map (fun p => Op.teachOp p.1 p.2)) := rfl
    rw [hstep]
    refine ih (applyOp s (.teachOp p.1 p.2)) h1.1 ?_
    intro q hq
    rw [h1.2]
    exact hall q (List.mem_cons_of_mem p hq)

/-- Claim C3: starting from freshly entered correction mode (both
verification counters zero), any two consecutive replies each assessed as
showing understanding with confidence below 0.8 leave correction mode still
active after the first (score 0.4) and exit it on exactly the second
(score 0.8); and a sequence of replies none of which is assessed as showing
understanding never exits correction mode. -/
theorem c3_loop_termination :
    (∀ (s : Session) (env1 env2 : StepEnv) (r1 r2 : String),
      s.conversation_memory.correction_mode = true →
      s.conversation_memory.verification_questions_asked = 0 →
      s.conversation_memory.verification_answers_correct = 0 →
      ¬ pyStrip r1 = "" → is_inappropriate_response (pyStrip r1) = false →
      3 ≤ wordCount (pyStrip r1) →
      ¬ pyStrip r2 = "" → is_inappropriate_response (pyStrip r2) = false →
      3 ≤ wordCount (pyStrip r2) →
      (assess_understanding env1.assessOracle (pyStrip r1)
          s.conversation_memory.current_correction_topic).shows_understanding = true →
      (assess_understanding env1.assessOracle (pyStrip r1)
          s.conversation_memory.current_correction_topic).confidence < 0.8 →
      (assess_understanding env2.assessOracle (pyStrip r2)
          s.conversation_memory.current_correction_topic).shows_understanding = true →
      (assess_understanding env2.assessOracle (pyStrip r2)
          s.conversation_memory.current_correction_topic).confidence < 0.8 →
      ∃ s1 a1, teach_step env1 s r1 = .ok (s1, a1, 0.4) ∧
        s1.conversation_memory.correction_mode = true ∧
        ∃ s2 a2, teach_step env2 s1 r2 = .ok (s2, a2, 0.8) ∧
          s2.conversation_memory.correction_mode = false) ∧
    (∀ (s : Session) (steps : List (StepEnv × String)),
      s.conversation_memory.correction_mode = true →
      s.conversation_memory.verification_questions_asked = 0 →
      s.conversation_memory.verification_answers_correct = 0 →
      (∀ p ∈ steps, (assess_understanding p.1.assessOracle (pyStrip p.2)
          s.conversation_memory.current_correction_topic).shows_understanding = false) →
      (runOps s (steps.map (fun p => Op.teachOp p.1 p.2))).conversation_memory.correction_mode =
        true) := by
  constructor
  · intro s env1 env2 r1 r2 hmode hvqa hvac hb1 hi1 _ hb2 hi2 _ hshow1 hconf1 hshow2 hconf2
    have hstep1 := aux_teach_step_eq env1 s r1 hb1 hi1
    rw [aux_dispatch_correction env1 s (pyStrip r1) hmode, aux_handle_show env1 s (pyStrip r1) hshow1] at hstep1
    rw [if_neg (by
      rintro (h | h)
      · omega
      · linarith)] at hstep1
    dsimp only at hstep1
    set s1 := teach_record (pyStrip r1)
      ({ s with conversation_memory :=
           { s.conversation_memory with
               verification_questions_asked :=
                 s.conversation_memory.verification_questions_asked + 1
               verification_answers_correct :=
                 s.conversation_memory.verification_answers_correct + 1 } },
       generate_verification_question s.topic s.conversation_memory.current_correction_topic
         (s.conversation_memory.verification_questions_asked + 1) env1.rngVerify,
       0.4) with hs1def
    have hmem1 : s1.conversation_memory.correction_mode = s.conversation_memory.correction_mode ∧
        s1.conversation_memory.current_correction_topic =
          s.conversation_memory.current_correction_topic ∧
        s1.conversation_memory.verification_answers_correct =
          s.conversation_memory.verification_answers_correct + 1 := by
      rw [hs1def, aux_record_memory]
      exact ⟨by rw [aux_mem_add_cm], by rw [aux_mem_add_cct], by rw [aux_mem_add_vac]⟩
    refine ⟨s1, _, hstep1, by rw [hmem1.1]; exact hmode, ?_⟩
    have hshow2' : (assess_understanding env2.assessOracle (pyStrip r2)
        s1.conversation_memory.current_correction_topic).shows_understanding = true := by
      rw [hmem1.2.1]
      exact hshow2
    have hstep2 := aux_teach_step_eq env2 s1 r2 hb2 hi2
    rw [aux_dispatch_correction env2 s1 (pyStrip r2) (by rw [hmem1.1]; exact hmode),
        aux_handle_show env2 s1 (pyStrip r2) hshow2'] at hstep2
    rw [if_pos (Or.inl (by omega))] at hstep2
    dsimp only at hstep2
    refine ⟨_, _, hstep2, ?_⟩
    rw [aux_record_memory, aux_mem_add_cm]
  · intro s steps hmode _ _ hall
    exact aux_never_exits steps s hmode hall

/-- Claim C3 witness: from a concretely entered correction state, two
unconfident understanding replies exit on exactly the second, and one
non-understanding reply leaves correction mode active. -/
theorem c3_loop_termination_witness :
    (∃ s1 a1, teach_step envShy traceFreshCorrection verifyReply = .ok (s1, a1, 0.4) ∧
      s1.conversation_memory.correction_mode = true ∧
      ∃ s2 a2, teach_step envShy s1 verifyReply = .ok (s2, a2, 0.8) ∧
        s2.conversation_memory.correction_mode = false) ∧
    (runOps traceFreshCorrection
        [Op.teachOp envNegConfident verifyReply]).conversation_memory.correction_mode = true := by
  constructor
  · exact c3_loop_termination.1 traceFreshCorrection envShy envShy verifyReply verifyReply
      (by decide) (by decide) (by decide) (by decide) (by decide) (by decide)
      (by decide) (by decide) (by decide) (by decide) (by decide) (by decide) (by decide)
  · exact c3_loop_termination.2 traceFreshCorrection [(envNegConfident, verifyReply)]
      (by decide) (by decide) (by decide)
      (by
        intro p hp
        rw [List.mem_singleton] at hp
        subst hp
        decide)

/-- Strings with distinct first characters are distinct. -/
theorem aux_ne_of_head (s1 s2 : String) (c1 c2 : Char) (h1 : s1.data.head? = some c1)
    (h2 : s2.data.head? = some c2) (hne : c1 ≠ c2) : s1 ≠ s2 := by
  intro h
  rw [h] at h1
  rw [h1] at h2
  exact hne (Option.some.inj h2)

/-- The first verification question comes from a template family disjoint
from the family used for every later question, whatever the correction topic,
session topic and random draws. -/
theorem aux_verification_families (t c : String) (r1 r2 n : ℕ) (hn : 2 ≤ n) :
    generate_verification_question t c 1 r1 ≠ generate_verification_question t c n r2 := by
  unfold generate_verification_question
  rw [if_pos rfl, if_neg (by omega)]
  unfold listChoice
  have h1 : r1 % 3 = 0 ∨ r1 % 3 = 1 ∨ r1 % 3 = 2 := by omega
  have h2 : r2 % 3 = 0 ∨ r2 % 3 = 1 ∨ r2 % 3 = 2 := by omega
  rcases h1 with h1 | h1 | h1 <;> rcases h2 with h2 | h2 | h2 <;>
    simp only [List.length_cons, List.length_nil, h1, h2,
      List.getD_cons_zero, List.getD_cons_succ] <;>
    exact aux_ne_of_head _ _ _ _ rfl rfl (by decide)

/-- Claim C2, counterexample: in freshly entered correction mode, a 9-word
reply assessed with `shows_understanding = false` and confidence 0.9
satisfies the claim exit condition (confidence at least 0.8), yet the step
stays in correction mode with score 0.4 — the source gates the whole exit
check on `shows_understanding`. -/
theorem c2_verification_counterexample :
    traceFreshCorrection.conversation_memory.correction_mode = true ∧
    traceFreshCorrection.conversation_memory.verification_answers_correct = 0 ∧
    3 ≤ wordCount (pyStrip verifyReply) ∧
    (assess_understanding envNegConfident.assessOracle (pyStrip verifyReply)
      traceFreshCorrection.conversation_memory.current_correction_topic).confidence = 0.9 ∧
    (0.8 : ℚ) ≤ 0.9 ∧
    (teach_step envNegConfident traceFreshCorrection verifyReply).map
      (fun r => (r.1.conversation_memory.correction_mode, r.2.2)) = .ok (true, 0.4) := by
  exact ⟨by decide, by decide, by decide, by decide, by decide, by rfl⟩

/-- Claim C2, amended: for a teach step in correction mode on a clean
non-blank reply of at least 3 words — if the assessment SHOWS UNDERSTANDING
and (the incremented correct count reaches 2 or the confidence is at least
0.8), correction mode is exited with quality 0.8; otherwise (assessment
negative, or positive but below both thresholds) the session stays in
correction mode with quality 0.4 and emits verification question number
`questions_asked + 1`, whose first-question template family is disjoint from
the family of all later questions. -/
theorem c2_verification_amended :
    (∀ (env : StepEnv) (s : Session) (r : String),
      s.conversation_memory.correction_mode = true →
      ¬ pyStrip r = "" → is_inappropriate_response (pyStrip r) = false →
      3 ≤ wordCount (pyStrip r) →
      ((assess_understanding env.assessOracle (pyStrip r)
          s.conversation_memory.current_correction_topic).shows_understanding = true →
        (2 ≤ s.conversation_memory.verification_answers_correct + 1 ∨
          (0.8 : ℚ) ≤ (assess_understanding env.assessOracle (pyStrip r)
            s.conversation_memory.current_correction_topic).confidence) →
        ∃ s', teach_step env s r =
            .ok (s',
              "Perfect! You\x27ve got it now! " ++
                (assess_understanding env.assessOracle (pyStrip r)
                  s.conversation_memory.current_correction_topic).encouragement ++
                " Let me continue with a new question about " ++ s.topic ++ "." ++ " " ++
                env.genText,
              0.8) ∧
          s'.conversation_memory.correction_mode = false) ∧
      (((assess_understanding env.assessOracle (pyStrip r)
          s.conversation_memory.current_correction_topic).shows_understanding = false ∨
        ((assess_understanding env.assessOracle (pyStrip r)
            s.conversation_memory.current_correction_topic).shows_understanding = true ∧
          ¬ (2 ≤ s.conversation_memory.verification_answers_correct + 1 ∨
            (0.8 : ℚ) ≤ (assess_understanding env.assessOracle (pyStrip r)
              s.conversation_memory.current_correction_topic).confidence))) →
        ∃ s', teach_step env s r =
            .ok (s',
              generate_verification_question s.topic
                s.conversation_memory.current_correction_topic
                (s.conversation_memory.verification_questions_asked + 1) env.rngVerify,
              0.4) ∧
          s'.conversation_memory.correction_mode = true)) ∧
    (∀ (t c : String) (r1 r2 n : ℕ), 2 ≤ n →
      generate_verification_question t c 1 r1 ≠ generate_verification_question t c n r2) := by
  constructor
  · intro env s r hmode hb hi _
    constructor
    · intro hshow hcond
      have hstep := aux_teach_step_eq env s r hb hi
      rw [aux_dispatch_correction env s (pyStrip r) hmode,
          aux_handle_show env s (pyStrip r) hshow, if_pos hcond] at hstep
      dsimp only at hstep
      refine ⟨_, hstep, ?_⟩
      rw [aux_record_memory, aux_mem_add_cm]
    · intro hstay
      have hstep := aux_teach_step_eq env s r hb hi
      rcases hstay with hnoshow | ⟨hshow, hnocond⟩
      · rw [aux_dispatch_correction env s (pyStrip r) hmode,
            aux_handle_noshow env s (pyStrip r) hnoshow] at hstep
        dsimp only at hstep
        refine ⟨_, hstep, ?_⟩
        rw [aux_record_memory, aux_mem_add_cm]
        exact hmode
      · rw [aux_dispatch_correction env s (pyStrip r) hmode,
            aux_handle_show env s (pyStrip r) hshow, if_neg hnocond] at hstep
        dsimp only at hstep
        refine ⟨_, hstep, ?_⟩
        rw [aux_record_memory, aux_mem_add_cm]
        exact hmode
  · exact aux_verification_families

/-- Claim C2 witness: the amended theorem at a concrete fresh correction
state — a confident positive assessment exits with 0.8; an unconfident
positive assessment stays with verification question 1; and question 1 is
distinct from any later question for the concrete topics. -/
theorem c2_verification_witness :
    (∃ s', teach_step envConfident traceFreshCorrection verifyReply =
        .ok (s',
          "Perfect! You\x27ve got it now! " ++
            (assess_understanding envConfident.assessOracle (pyStrip verifyReply)
              traceFreshCorrection.conversation_memory.current_correction_topic).encouragement ++
            " Let me continue with a new question about " ++ traceFreshCorrection.topic ++
            "." ++ " " ++ envConfident.genText,
          0.8) ∧
      s'.conversation_memory.correction_mode = false) ∧
    (∃ s', teach_step envShy traceFreshCorrection verifyReply =
        .ok (s',
          generate_verification_question traceFreshCorrection.topic
            traceFreshCorrection.conversation_memory.current_correction_topic
            (traceFreshCorrection.conversation_memory.verification_questions_asked + 1)
            envShy.rngVerify,
          0.4) ∧
      s'.conversation_memory.correction_mode = true) ∧
    generate_verification_question "photosynthesis" "plants eating sunlight" 1 0 ≠
      generate_verification_question "photosynthesis" "plants eating sunlight" 2 0 := by
  refine ⟨?_, ?_, ?_⟩
  · exact ((c2_verification_amended.1 envConfident traceFreshCorrection verifyReply
      (by decide) (by decide) (by decide) (by decide)).1 (by decide) (by decide))
  · exact ((c2_verification_amended.1 envShy traceFreshCorrection verifyReply
      (by decide) (by decide) (by decide) (by decide)).2 (Or.inr ⟨by decide, by decide⟩))
  · exact c2_verification_amended.2 "photosynthesis" "plants eating sunlight" 0 0 2 (by omega)

/-- The dispatch stage never changes difficulty, exchange count or scores. -/
theorem aux_dispatch_preserves (env : StepEnv) (s : Session) (x : String) :
    (teach_dispatch env s x).1.ai_confusion_level = s.ai_confusion_level ∧
    (teach_dispatch env s x).1.exchanges_count = s.exchanges_count ∧
    (teach_dispatch env s x).1.teaching_quality_scores = s.teaching_quality_scores := by
  unfold teach_dispatch handle_correction_mode
  dsimp only
  split_ifs <;> exact ⟨rfl, rfl, rfl⟩

/-- Full difficulty characterization of a successful teach step: refusal
turns leave the state alone; all other turns increment the exchange count,
append the score, and adjust the difficulty exactly when correction mode is
inactive once the turn is over. -/
theorem aux_teach_step_level (env : StepEnv) (s : Session) (e : String) (s1 : Session)
    (a : String) (q : ℚ) (h : teach_step env s e = .ok (s1, a, q)) :
    (is_inappropriate_response (pyStrip e) = true → s1 = s ∧ q = 0.1) ∧
    (is_inappropriate_response (pyStrip e) = false →
      s1.exchanges_count = s.exchanges_count + 1 ∧
      s1.teaching_quality_scores = s.teaching_quality_scores ++ [q] ∧
      s1.ai_confusion_level =
        (if s1.conversation_memory.correction_mode = true then s.ai_confusion_level
         else if (0.75 : ℚ) ≤ q ∧ 2 ≤ s1.exchanges_count then min 3 (s.ai_confusion_level + 1)
         else if q ≤ (0.35 : ℚ) ∧ 4 ≤ s1.exchanges_count ∧
             (lastN 3 s1.teaching_quality_scores).all (fun x => decide (x ≤ (0.4 : ℚ))) = true
           then max 1 (s.ai_confusion_level - 1)
         else s.ai_confusion_level)) := by
  by_cases hb : pyStrip e = ""
  · rw [show teach_step env s e = .error "Please provide an explanation" by
      unfold teach_step; rw [if_pos hb]] at h
    exact absurd h (by simp)
  · by_cases hi : is_inappropriate_response (pyStrip e) = true
    · rw [show teach_step env s e =
          .ok (s, "That\x27s not helpful. Could you explain the concept respectfully?", 0.1) by
        unfold teach_step; rw [if_neg hb, if_pos hi]] at h
      have h' := Except.ok.inj h
      have h1 : s = s1 := congrArg Prod.fst h'
      have h3 : (0.1 : ℚ) = q := congrArg (fun p => p.2.2) h'
      constructor
      · intro _
        exact ⟨h1.symm, h3.symm⟩
      · intro hcontra
        rw [hi] at hcontra
        cases hcontra
    · have hi' : is_inappropriate_response (pyStrip e) = false := by simpa using hi
      rw [aux_teach_step_eq env s e hb hi'] at h
      have h' := Except.ok.inj h
      have h1 : s1 = teach_record (pyStrip e) (teach_dispatch env s (pyStrip e)) :=
        (congrArg Prod.fst h').symm
      have h3 : q = (teach_dispatch env s (pyStrip e)).2.2 :=
        (congrArg (fun p => p.2.2) h').symm
      obtain ⟨hd, hn, hsc⟩ := aux_dispatch_preserves env s (pyStrip e)
      constructor
      · intro hcontra
        rw [hi'] at hcontra
        cases hcontra
      · intro _
        have hcount : s1.exchanges_count = s.exchanges_count + 1 := by
          rw [h1, aux_record_count, hn]
        have hscores : s1.teaching_quality_scores = s.teaching_quality_scores ++ [q] := by
          rw [h1, aux_record_scores, hsc, h3]
        have hmem : s1.conversation_memory =
            mem_add_exchange (teach_dispatch env s (pyStrip e)).1.conversation_memory
              (pyStrip e) (teach_dispatch env s (pyStrip e)).2.1 := by
          rw [h1, aux_record_memory]
        refine ⟨hcount, hscores, ?_⟩
        by_cases hcm : s1.conversation_memory.correction_mode = true
        · have hc1 : (mem_add_exchange (teach_dispatch env s (pyStrip e)).1.conversation_memory
              (pyStrip e) (teach_dispatch env s (pyStrip e)).2.1).correction_mode = true := by
            rw [← hmem]
            exact hcm
          rw [if_pos hcm, h1, aux_record_level_frozen _ _ hc1, hd]
        · have hcm' : s1.conversation_memory.correction_mode = false := by
            simpa using hcm
          have hc2 : (mem_add_exchange (teach_dispatch env s (pyStrip e)).1.conversation_memory
              (pyStrip e) (teach_dispatch env s (pyStrip e)).2.1).correction_mode = false := by
            rw [← hmem]
            exact hcm'
          rw [if_neg hcm, hcount, hscores, h1, aux_record_level_adjusted _ _ hc2,
            hd, hn, hsc, ← h3]

/-- A successful StartTeaching resets the difficulty to 1. -/
theorem aux_start_level (now : ℚ) (env : StepEnv) (t : String) (s s1 : Session)
    (a : String) (d : ℕ) (h : start_teaching now env t s = .ok (s1, a, d)) :
    s1.ai_confusion_level = 1 := by
  unfold start_teaching at h
  by_cases hb : pyStrip t = ""
  · rw [if_pos hb] at h
    cases h
  · rw [if_neg hb] at h
    dsimp only at h
    have h5 := congrArg Prod.fst (Except.ok.inj h)
    dsimp only at h5
    rw [← h5]
    rfl

/-- One operation keeps the difficulty inside the band [1, 3]. -/
theorem aux_level_bounds_step (s : Session) (op : Op)
    (h1 : 1 ≤ s.ai_confusion_level) (h3 : s.ai_confusion_level ≤ 3) :
    1 ≤ (applyOp s op).ai_confusion_level ∧ (applyOp s op).ai_confusion_level ≤ 3 := by
  cases op with
  | startOp now env t =>
    unfold applyOp
    dsimp only
    cases hst : start_teaching now env t s with
    | error m => exact ⟨h1, h3⟩
    | ok v =>
      obtain ⟨s1, a, d⟩ := v
      dsimp only
      have hlev := aux_start_level now env t s s1 a d hst
      omega
  | teachOp env e =>
    unfold applyOp
    dsimp only
    cases hts : teach_step env s e with
    | error m => exact ⟨h1, h3⟩
    | ok v =>
      obtain ⟨s1, a, q⟩ := v
      dsimp only
      have hchar := aux_teach_step_level env s e s1 a q hts
      by_cases hi : is_inappropriate_response (pyStrip e) = true
      · rw [(hchar.1 hi).1]
        omega
      · have hlev := (hchar.2 (by simpa using hi)).2.2
        split_ifs at hlev <;> omega
  | resetOp now =>
    unfold applyOp
    dsimp only
    unfold reset_session
    dsimp only
    omega

/-- The difficulty band is an invariant of whole operation traces. -/
theorem aux_runOps_bounds (ops : List Op) :
    ∀ s : Session, 1 ≤ s.ai_confusion_level → s.ai_confusion_level ≤ 3 →
    1 ≤ (runOps s ops).ai_confusion_level ∧ (runOps s ops).ai_confusion_level ≤ 3 := by
  induction ops with
  | nil => intro s h1 h3; exact ⟨h1, h3⟩
  | cons op rest ih =>
    intro s h1 h3
    have hstep := aux_level_bounds_step s op h1 h3
    exact ih (applyOp s op) hstep.1 hstep.2

/-- Claim C4, counterexample: on a reachable trace the difficulty is 2 and
the next step satisfies every demotion condition of the claim — score 0.2,
exchange count 5, last three scores all at most 0.4 — yet the difficulty
stays 2 instead of dropping to max(1, 2-1) = 1, because that step enters
correction mode and the source skips the adjustment while correction mode is
active. -/
theorem c4_difficulty_counterexample :
    traceBeforeEntryDemotion.ai_confusion_level = 2 ∧
    (teach_step envFlag traceBeforeEntryDemotion errorExpl).map
      (fun r => (r.1.ai_confusion_level, r.1.exchanges_count,
                 lastN 3 r.1.teaching_quality_scores, r.2.2,
                 r.1.conversation_memory.correction_mode)) =
      .ok (2, 5, [0.1, 0.1, 0.2], 0.2, true) ∧
    (0.2 : ℚ) ≤ 0.35 ∧ (4 : ℕ) ≤ 5 ∧
    ([(0.1 : ℚ), 0.1, 0.2].all (fun x => decide (x ≤ (0.4 : ℚ))) = true) ∧
    max 1 (traceBeforeEntryDemotion.ai_confusion_level - 1) = 1 ∧ (2 : ℕ) ≠ 1 := by
  exact ⟨by rfl, by rfl, by decide, by decide, by decide, by rfl, by decide⟩

/-- Claim C4, amended: the difficulty starts at 1, stays in {1, 2, 3} over
every operation trace, is reset to 1 by StartTeaching and ResetSession, and
on a successful teach step follows the promote/demote formula of the claim
EXCEPT that refusal-filtered steps leave the whole state untouched and steps
that end with correction mode active (error-entry and remain-in-verification
turns) freeze the difficulty even when the demotion conditions hold. -/
theorem c4_difficulty_amended :
    initialSession.ai_confusion_level = 1 ∧
    (∀ ops : List Op, 1 ≤ (runOps initialSession ops).ai_confusion_level ∧
      (runOps initialSession ops).ai_confusion_level ≤ 3) ∧
    (∀ (env : StepEnv) (s : Session) (e : String) (s1 : Session) (a : String) (q : ℚ),
      teach_step env s e = .ok (s1, a, q) →
      (is_inappropriate_response (pyStrip e) = true → s1 = s) ∧
      (is_inappropriate_response (pyStrip e) = false →
        s1.ai_confusion_level =
          (if s1.conversation_memory.correction_mode = true then s.ai_confusion_level
           else if (0.75 : ℚ) ≤ q ∧ 2 ≤ s1.exchanges_count then min 3 (s.ai_confusion_level + 1)
           else if q ≤ (0.35 : ℚ) ∧ 4 ≤ s1.exchanges_count ∧
               (lastN 3 s1.teaching_quality_scores).all (fun x => decide (x ≤ (0.4 : ℚ))) = true
             then max 1 (s.ai_confusion_level - 1)
           else s.ai_confusion_level))) ∧
    (∀ (now : ℚ) (env : StepEnv) (t : String) (s s1 : Session) (a : String) (d : ℕ),
      start_teaching now env t s = .ok (s1, a, d) → s1.ai_confusion_level = 1) ∧
    (∀ (now : ℚ) (s : Session), (reset_session now s).ai_confusion_level = 1) := by
  refine ⟨rfl, ?_, ?_, ?_, fun now s => rfl⟩
  · intro ops
    exact aux_runOps_bounds ops initialSession (by decide) (by decide)
  · intro env s e s1 a q h
    have hchar := aux_teach_step_level env s e s1 a q h
    exact ⟨fun hi => (hchar.1 hi).1, fun hi => (hchar.2 hi).2.2⟩
  · intro now env t s s1 a d h
    exact aux_start_level now env t s s1 a d h

/-- Claim C4 witness: the amended theorem at a one-step trace, a concrete
non-refusal teach step (score 0.1, no adjustment at one exchange), and a
concrete reset. -/
theorem c4_difficulty_witness :
    (1 ≤ (runOps initialSession [Op.teachOp envPlain "abcd"]).ai_confusion_level ∧
      (runOps initialSession [Op.teachOp envPlain "abcd"]).ai_confusion_level ≤ 3) ∧
    sessionAfterAbcd.ai_confusion_level =
      (if sessionAfterAbcd.conversation_memory.correction_mode = true then
         initialSession.ai_confusion_level
       else if (0.75 : ℚ) ≤ 0.1 ∧ 2 ≤ sessionAfterAbcd.exchanges_count then
         min 3 (initialSession.ai_confusion_level + 1)
       else if (0.1 : ℚ) ≤ 0.35 ∧ 4 ≤ sessionAfterAbcd.exchanges_count ∧
           (lastN 3 sessionAfterAbcd.teaching_quality_scores).all
             (fun x => decide (x ≤ (0.4 : ℚ))) = true
         then max 1 (initialSession.ai_confusion_level - 1)
       else initialSession.ai_confusion_level) ∧
    (reset_session 0 initialSession).ai_confusion_level = 1 := by
  refine ⟨c4_difficulty_amended.2.1 [Op.teachOp envPlain "abcd"], ?_,
    c4_difficulty_amended.2.2.2.2 0 initialSession⟩
  exact (c4_difficulty_amended.2.2.1 envPlain initialSession "abcd" sessionAfterAbcd "Q?" 0.1
    (by rfl)).2 (by decide)

/-- In correction mode, a handled reply either stays (mode unchanged,
score 0.4) or exits (mode false, score 0.8). -/
theorem aux_handle_mode_score (env : StepEnv) (s : Session) (r : String)
    (hmode : s.conversation_memory.correction_mode = true) :
    ((handle_correction_mode env s r).1.conversation_memory.correction_mode = true ∧
      (handle_correction_mode env s r).2.2 = 0.4) ∨
    ((handle_correction_mode env s r).1.conversation_memory.correction_mode = false ∧
      (handle_correction_mode env s r).2.2 = 0.8) := by
  by_cases hshow : (assess_understanding env.assessOracle r
      s.conversation_memory.current_correction_topic).shows_understanding = true
  · by_cases hcond : 2 ≤ s.conversation_memory.verification_answers_correct + 1 ∨
        (0.8 : ℚ) ≤ (assess_understanding env.assessOracle r
          s.conversation_memory.current_correction_topic).confidence
    · right
      rw [aux_handle_show env s r hshow, if_pos hcond]
      exact ⟨rfl, rfl⟩
    · left
      rw [aux_handle_show env s r hshow, if_neg hcond]
      exact ⟨hmode, rfl⟩
  · left
    rw [aux_handle_noshow env s r (by simpa using hshow)]
    exact ⟨hmode, rfl⟩

/-- Claim C10, counterexample: on a reachable trace the difficulty is
saturated at 3 while in correction mode; the exit turn satisfies the claim
conditions (mode cleared on that turn, score 0.8, exchange count 5 at least
2), yet the difficulty stays 3 — it is not "promoted by one" to 4, because
the promotion is min(3, d+1). -/
theorem c10_saturation_counterexample :
    traceSaturatedInCorrection.ai_confusion_level = 3 ∧
    traceSaturatedInCorrection.conversation_memory.correction_mode = true ∧
    (teach_step envConfident traceSaturatedInCorrection verifyReply).map
      (fun r => (r.1.ai_confusion_level, r.1.conversation_memory.correction_mode,
                 r.2.2, r.1.exchanges_count)) = .ok (3, false, 0.8, 5) ∧
    (2 : ℕ) ≤ 5 ∧
    traceSaturatedInCorrection.ai_confusion_level + 1 = 4 ∧ (3 : ℕ) ≠ 4 := by
  exact ⟨by rfl, by rfl, by rfl, by decide, by rfl, by decide⟩

/-- Claim C10, amended: on a teach step taken while correction mode is
active, if the turn ends with correction mode still active the difficulty is
frozen; if the turn exits correction mode, its score is 0.8 and the
difficulty controller runs on that very turn — the difficulty becomes
min(3, d+1) whenever the post-exchange count is at least 2 (a strict
promotion only when d < 3), else stays. -/
theorem c10_exit_promotion_amended (env : StepEnv) (s : Session) (r : String) (s1 : Session)
    (a : String) (q : ℚ) (hmode : s.conversation_memory.correction_mode = true)
    (h : teach_step env s r = .ok (s1, a, q)) :
    (s1.conversation_memory.correction_mode = true →
      s1.ai_confusion_level = s.ai_confusion_level) ∧
    (s1.conversation_memory.correction_mode = false →
      q = 0.8 ∧ s1.exchanges_count = s.exchanges_count + 1 ∧
      s1.ai_confusion_level =
        (if 2 ≤ s1.exchanges_count then min 3 (s.ai_confusion_level + 1)
         else s.ai_confusion_level)) := by
  have hchar := aux_teach_step_level env s r s1 a q h
  by_cases hi : is_inappropriate_response (pyStrip r) = true
  · obtain ⟨hs, _⟩ := hchar.1 hi
    constructor
    · intro _
      rw [hs]
    · intro hf
      rw [hs, hmode] at hf
      cases hf
  · have hi' : is_inappropriate_response (pyStrip r) = false := by simpa using hi
    have hb : ¬ pyStrip r = "" := by
      intro h0
      rw [show teach_step env s r = .error "Please provide an explanation" by
        unfold teach_step; rw [if_pos h0]] at h
      cases h
    obtain ⟨hcount, hscores, hlev⟩ := hchar.2 hi'
    rw [aux_teach_step_eq env s r hb hi'] at h
    have hq : q = (teach_dispatch env s (pyStrip r)).2.2 :=
      (congrArg (fun p => p.2.2) (Except.ok.inj h)).symm
    have h1 : s1 = teach_record (pyStrip r) (teach_dispatch env s (pyStrip r)) :=
      (congrArg Prod.fst (Except.ok.inj h)).symm
    have hmem : s1.conversation_memory =
        mem_add_exchange (teach_dispatch env s (pyStrip r)).1.conversation_memory
          (pyStrip r) (teach_dispatch env s (pyStrip r)).2.1 := by
      rw [h1, aux_record_memory]
    have hdisp := aux_dispatch_correction env s (pyStrip r) hmode
    have hmode1 : s1.conversation_memory.correction_mode =
        (handle_correction_mode env s (pyStrip r)).1.conversation_memory.correction_mode := by
      rw [hmem, aux_mem_add_cm, hdisp]
    have hq' : q = (handle_correction_mode env s (pyStrip r)).2.2 := by
      rw [hq, hdisp]
    rcases aux_handle_mode_score env s (pyStrip r) hmode with ⟨hm, _⟩ | ⟨hm, hsc08⟩
    · have hcm : s1.conversation_memory.correction_mode = true := by
        rw [hmode1, hm]
      constructor
      · intro _
        rw [hlev, if_pos hcm]
      · intro hf
        rw [hcm] at hf
        cases hf
    · have hcm : s1.conversation_memory.correction_mode = false := by
        rw [hmode1, hm]
      constructor
      · intro hf
        rw [hcm] at hf
        cases hf
      · intro _
        have hq08 : q = 0.8 := by
          rw [hq', hsc08]
        refine ⟨hq08, hcount, ?_⟩
        rw [hlev, if_neg (by rw [hcm]; simp)]
        by_cases hn : 2 ≤ s1.exchanges_count
        · rw [if_pos ⟨by rw [hq08]; norm_num, hn⟩, if_pos hn]
        · rw [if_neg (fun hc => hn hc.2),
              if_neg (by
                rw [hq08]
                rintro ⟨hle, -⟩
                norm_num at hle),
              if_neg hn]

/-- Claim C10 witness: the amended theorem at a concrete exit turn (the
difficulty is promoted from 1 to 2 on the turn that exits correction mode)
and at a concrete refusal turn that leaves correction mode active (difficulty
frozen). -/
theorem c10_exit_promotion_witness :
    ((0.8 : ℚ) = 0.8 ∧
      sessionAfterExit.exchanges_count = traceFreshCorrection.exchanges_count + 1 ∧
      sessionAfterExit.ai_confusion_level =
        (if 2 ≤ sessionAfterExit.exchanges_count then
           min 3 (traceFreshCorrection.ai_confusion_level + 1)
         else traceFreshCorrection.ai_confusion_level)) ∧
    traceFreshCorrection.ai_confusion_level = traceFreshCorrection.ai_confusion_level := by
  constructor
  · exact (c10_exit_promotion_amended envConfident traceFreshCorrection verifyReply
      sessionAfterExit exitRespC10 0.8 (by rfl) (by rfl)).2 (by rfl)
  · exact (c10_exit_promotion_amended envPlain traceFreshCorrection "this is stupid"
      traceFreshCorrection
      "That\x27s not helpful. Could you explain the concept respectfully?" 0.1
      (by rfl) (by rfl)).1 (by rfl)

end TeachingValidator
